import Mathlib

/-!
Verification development for the gpframe structured-concurrency runtime.

The definitions below shallowly embed the repository's executable code:
the frame executor layer (src/src/tmp/frame/future.py), the lifecycle
phase enum (src/src/gpframe/frame/lat_behavior.py) and the exception
constructors (src/src/gpframe/contracts/exceptions.py).  Components whose
implementation is not part of the source tree (the result store accessors,
the message channel, the checked/unchecked error bookkeeping, the marking
protocol and the lifecycle circuit) are modelled from the specification,
each such definition is labelled accordingly.
-/

namespace GpFrame

/-- A Python exception instance as observed by the framework: the name of its
type and its message.  Embeds the BaseException values stored in executor
state and result records. -/
structure PyExcVal where
  typeName : String
  msg : String
deriving DecidableEq

/-- The exceptions raised by the embedded framework code. -/
inductive PyExc where
  | runtimeError
  | timeoutError
  | frameAggregateError (root_name : String) (root_error : Option PyExcVal)
      (sub_errors : List (String × PyExcVal))
  | subFrameError (frame_name : String) (cause : PyExcVal)
  | messageKeyError
  | messageTypeError
  | redefineError
  | consumedError
deriving DecidableEq

/-- gpframe.contracts.exceptions.FrameAggregateError: the attributes stored by
its constructor together with the message it builds. -/
structure FrameAggregateError where
  root_frame_name : String
  root_frame_error : Option PyExcVal
  sub_frame_errors : List (String × PyExcVal)
  message : String
deriving DecidableEq

/-- FrameAggregateError.__init__ from src/src/gpframe/contracts/exceptions.py.
The dict of sub-frame errors is embedded as an association list in its
iteration (insertion) order. -/
def FrameAggregateError.init (root_name : String) (root_error : Option PyExcVal)
    (sub_errors : List (String × PyExcVal)) : FrameAggregateError :=
  let rootParts : List String :=
    match root_error with
    | some e => [root_name ++ ": " ++ e.typeName]
    | none => []
  let parts : List String :=
    rootParts ++ sub_errors.map (fun p => p.1 ++ ": " ++ p.2.typeName)
  let msg : String :=
    "The root frame \x27" ++ root_name ++ "\x27 has terminated with errors.\n"
      ++ "The following frames raised errors:\n  "
      ++ String.intercalate ", " parts
  { root_frame_name := root_name
    root_frame_error := root_error
    sub_frame_errors := sub_errors
    message := msg }

/-- LATState from src/src/gpframe/frame/lat_behavior.py: the three lifecycle
phases (the middle phase is named STARTED in the enum and ACTIVE in the
LATBehavior protocol). -/
inductive LATState where
  | LOAD
  | STARTED
  | TERMINATED
deriving DecidableEq

/-- The IntEnum value of each LATState member (LOAD = 0, auto() increments). -/
def LATState.value : LATState → Nat
  | LATState.LOAD => 0
  | LATState.STARTED => 1
  | LATState.TERMINATED => 2

/-- LATState(v): enum lookup by value; ValueError becomes none. -/
def LATState.ofValue : Nat → Option LATState
  | 0 => some LATState.LOAD
  | 1 => some LATState.STARTED
  | 2 => some LATState.TERMINATED
  | _ => none

/-- LATState.get_next: LATState(self.value + 1), none on ValueError. -/
def LATState.get_next (s : LATState) : Option LATState :=
  LATState.ofValue (s.value + 1)

/-- LATState.transitionable: self.get_next() is to. -/
def LATState.transitionable (s tgt : LATState) : Bool :=
  decide (s.get_next = some tgt)

/-- The mutable state owned by FrameExecutorImpl
(src/src/tmp/frame/future.py): the two threading.Event flags, the recorded
circuit error and whether a run state has been installed. -/
structure FrameExecutorState where
  frame_name : String
  future_is_ready : Bool
  run_state_set : Bool
  circuit_error : Option PyExcVal
  circuit_is_ended : Bool
deriving DecidableEq

/-- RootFrameExecutorImpl extends the base executor state with the count of
started sub frames and the failed-frames dict (an association list in
insertion order). -/
structure RootFrameExecutorState extends FrameExecutorState where
  started_sub_frame_count : Int
  failed_frames : List (String × PyExcVal)
deriving DecidableEq

/-- FrameExecutorImpl._start (the thread-unsafe core; the subclasses call it
with the executor lock held): fails once future_is_ready is set, otherwise
installs the run state and sets the event. -/
def FrameExecutorImpl.startImpl (s : FrameExecutorState) :
    Except PyExc FrameExecutorState :=
  if s.future_is_ready then Except.error PyExc.runtimeError
  else Except.ok { s with run_state_set := true, future_is_ready := true }

/-- FrameExecutorImpl._end (the thread-unsafe core; the subclasses call it
with the executor lock held): fails once circuit_is_ended is set, otherwise
records the circuit error and sets the event. -/
def FrameExecutorImpl.endImpl (circuit_exc : Option PyExcVal)
    (s : FrameExecutorState) : Except PyExc FrameExecutorState :=
  if s.circuit_is_ended then Except.error PyExc.runtimeError
  else Except.ok { s with circuit_error := circuit_exc, circuit_is_ended := true }

/-- RootFrameExecutorImpl._end: with self.lock, super()._end(circuit_exc);
the lock is embedded as the transition being a single atomic step. -/
def RootFrameExecutorImpl.endImpl (circuit_exc : Option PyExcVal)
    (s : RootFrameExecutorState) : Except PyExc RootFrameExecutorState :=
  match FrameExecutorImpl.endImpl circuit_exc s.toFrameExecutorState with
  | Except.error e => Except.error e
  | Except.ok b => Except.ok { s with toFrameExecutorState := b }

/-- RootFrameExecutorImpl.wait_done.  waitReturned embeds the boolean result
of self.circuit_is_ended.wait(timeout): true iff the event was set within the
timeout.  On false the code raises TimeoutError; otherwise it raises
FrameAggregateError when a circuit error or failed sub frames were
recorded, and only then returns normally. -/
def RootFrameExecutorImpl.wait_done (s : RootFrameExecutorState)
    (waitReturned : Bool) : Except PyExc Unit :=
  if !waitReturned then Except.error PyExc.timeoutError
  else if s.circuit_error.isSome || !s.failed_frames.isEmpty then
    Except.error
      (PyExc.frameAggregateError s.frame_name s.circuit_error s.failed_frames)
  else Except.ok ()

/-- SubFrameExecutorImpl.wait_done: TimeoutError when the event was not set
within the timeout, SubFrameError when a circuit error was recorded. -/
def SubFrameExecutorImpl.wait_done (s : FrameExecutorState)
    (waitReturned : Bool) : Except PyExc Unit :=
  if !waitReturned then Except.error PyExc.timeoutError
  else
    match s.circuit_error with
    | some e => Except.error (PyExc.subFrameError s.frame_name e)
    | none => Except.ok ()

/-- RootFrameExecutorImpl.processing: circuit_is_ended is set and the started
sub frame count is zero. -/
def RootFrameExecutorImpl.processing (s : RootFrameExecutorState) : Bool :=
  s.circuit_is_ended && s.started_sub_frame_count == 0

/-- SubFrameExecutorImpl.processing: circuit_is_ended is set. -/
def SubFrameExecutorImpl.processing (s : FrameExecutorState) : Bool :=
  s.circuit_is_ended

/-- A root executor whose circuit is still executing: started (future ready)
but the circuit has not ended, no errors, no sub frames. -/
def runningRootExec : RootFrameExecutorState :=
  { frame_name := "root"
    future_is_ready := true
    run_state_set := true
    circuit_error := none
    circuit_is_ended := false
    started_sub_frame_count := 0
    failed_frames := [] }

/-- A sub executor whose circuit is still executing. -/
def runningSubExec : FrameExecutorState :=
  { frame_name := "sub"
    future_is_ready := true
    run_state_set := true
    circuit_error := none
    circuit_is_ended := false }

/-- The root executor after its circuit ended without error and with no sub
frames outstanding: every bound frame has produced its completion record. -/
def endedRootExec : RootFrameExecutorState :=
  { frame_name := "root"
    future_is_ready := true
    run_state_set := true
    circuit_error := none
    circuit_is_ended := true
    started_sub_frame_count := 0
    failed_frames := [] }

/-- A sub executor still in LOAD: start has not installed a run state yet. -/
def loadedSubExec : FrameExecutorState :=
  { frame_name := "sub"
    future_is_ready := false
    run_state_set := false
    circuit_error := none
    circuit_is_ended := false }

/-- A sub executor whose circuit already ended (without error). -/
def endedSubExec : FrameExecutorState :=
  { runningSubExec with circuit_is_ended := true }

/-- A sample terminal exception value. -/
def boomExc : PyExcVal :=
  { typeName := "ValueError", msg := "x" }

/-- Modelled from the spec: the FrameResult record as consumed by the Result
Store single-item accessors; the Result Store implementation itself is not
part of the source tree.  A record carries the identity of its frame and the
terminal error (none for a successful frame). -/
structure FrameResultRec where
  frame_name : String
  error : Option PyExcVal
deriving DecidableEq

/-- Modelled from the spec: one call of a single-item accessor
(get_finished_frame, get_successful_frame or get_broken_frame, distinguished
by the filter).  It returns the first stored result that matches the filter
and has not been returned before by this accessor category. -/
def getFrameOnce (filt : FrameResultRec → Bool) (returned : List String)
    (results : List FrameResultRec) : Option FrameResultRec :=
  results.find? (fun r => filt r && !(decide (r.frame_name ∈ returned)))

/-- Modelled from the spec: a sequence of calls to one single-item accessor.
Between two calls the list of stored results may change arbitrarily (frames
finish concurrently), so each call receives its own snapshot from the
schedule; the bookkeeping of already returned results persists across calls.
The function returns the names of the results delivered, in order. -/
def runAccessor (filt : FrameResultRec → Bool) :
    List (List FrameResultRec) → List String → List String
  | [], _ => []
  | rs :: rest, returned =>
    match getFrameOnce filt returned rs with
    | some r => r.frame_name :: runAccessor filt rest (r.frame_name :: returned)
    | none => runAccessor filt rest returned

/-- Filter of get_broken_frame: the frame terminated with an error. -/
def brokenFilter (r : FrameResultRec) : Bool :=
  r.error.isSome

/-- Filter of get_successful_frame: the frame terminated without error. -/
def successfulFilter (r : FrameResultRec) : Bool :=
  r.error.isNone

/-- Filter of get_finished_frame: any stored result. -/
def finishedFilter (_ : FrameResultRec) : Bool :=
  true

/-- Modelled from the spec: a value held in a Message channel, tagged with
the name of its Python type; isinstance checks become type-name equality. -/
structure PyVal where
  ty : String
  val : String
deriving DecidableEq

/-- Modelled from the spec: the slot a defined Key owns in a channel: the
declared type, which survives consumption, and the value (none once
consumed). -/
structure ChanEntry where
  keyType : String
  value : Option PyVal
deriving DecidableEq

/-- Modelled from the spec: a Message channel maps keys to their slots; an
undefined key has no slot.  The channel implementation is not part of the
source tree. -/
abbrev Channel : Type := String → Option ChanEntry

/-- Replace the slot of one key. -/
def Channel.update (c : Channel) (k : String) (e : ChanEntry) : Channel :=
  fun q => if q = k then some e else c q

/-- Modelled from the spec: define(key, typ, value) fails with a redefinition
error on an existing key, rejects the null type and values that are not
instances of the declared type, and otherwise installs the slot. -/
def Channel.define (c : Channel) (k : String) (typ : String) (v : PyVal) :
    Except PyExc Channel :=
  match c k with
  | some _ => Except.error PyExc.redefineError
  | none =>
    if typ = "NoneType" then Except.error PyExc.messageTypeError
    else if v.ty ≠ typ then Except.error PyExc.messageTypeError
    else Except.ok (c.update k ⟨typ, some v⟩)

/-- Modelled from the spec: get(key, typ) fails on an undefined key, on a
type differing from the declared one, and with a consumed error on a
consumed slot; otherwise it returns the value. -/
def Channel.get (c : Channel) (k : String) (typ : String) :
    Except PyExc PyVal :=
  match c k with
  | none => Except.error PyExc.messageKeyError
  | some e =>
    if typ ≠ e.keyType then Except.error PyExc.messageTypeError
    else
      match e.value with
      | none => Except.error PyExc.consumedError
      | some v => Except.ok v

/-- Modelled from the spec: set(key, typ, value) requires the key to be
defined and the types to agree, and installs the new value unconditionally,
also on a consumed slot. -/
def Channel.set (c : Channel) (k : String) (typ : String) (v : PyVal) :
    Except PyExc Channel :=
  match c k with
  | none => Except.error PyExc.messageKeyError
  | some e =>
    if typ ≠ e.keyType then Except.error PyExc.messageTypeError
    else if v.ty ≠ e.keyType then Except.error PyExc.messageTypeError
    else Except.ok (c.update k ⟨e.keyType, some v⟩)

/-- Modelled from the spec: consume(key, typ) removes and returns the value
while retaining the key and its declared type; a second consume (or a
consume of a consumed slot) fails with a consumed error. -/
def Channel.consume (c : Channel) (k : String) (typ : String) :
    Except PyExc (PyVal × Channel) :=
  match c k with
  | none => Except.error PyExc.messageKeyError
  | some e =>
    if typ ≠ e.keyType then Except.error PyExc.messageTypeError
    else
      match e.value with
      | none => Except.error PyExc.consumedError
      | some v => Except.ok (v, c.update k ⟨e.keyType, none⟩)

/-- Modelled from the spec: the record the Result Store keeps for one
Frame-originated error: its frame, the exception, whether it has been
checked, and whether it has already been raised through the re-raise
wrapper. -/
structure ErrorRec where
  frame_name : String
  cause : PyExcVal
  checked : Bool
  raised_once : Bool
deriving DecidableEq

/-- Modelled from the spec: Session.reraise.  It raises the first held error
that has not been raised through this path before, marking it as raised
(and, with unwrap, also as checked); errors already raised once are skipped
even when still unchecked.  Returns the record raised, if any, and the
updated bookkeeping. -/
def reraise (unwrap : Bool) : List ErrorRec → Option ErrorRec × List ErrorRec
  | [] => (none, [])
  | r :: rest =>
    if r.raised_once then
      ((reraise unwrap rest).1, r :: (reraise unwrap rest).2)
    else
      (some r,
        { r with raised_once := true, checked := r.checked || unwrap } :: rest)

/-- Modelled from the spec: Session.faulted reports whether any held error is
still unchecked. -/
def faulted (errs : List ErrorRec) : Bool :=
  errs.any (fun r => !r.checked)

/-- Modelled from the spec: UncheckedError.check marks the wrapped error as
checked. -/
def ErrorRec.check (r : ErrorRec) : ErrorRec :=
  { r with checked := true }

/-- Modelled from the spec: the mark carried by a FrameResult, settable once;
unmarked is the initial state. -/
inductive FrameMark where
  | unmarked
  | ignored
  | unexpected (reason : String)
deriving DecidableEq

/-- Modelled from the spec: a FrameResult as seen by the marking protocol.
Whether the record contains a nested incomplete SessionResult is abstracted
to a flag. -/
structure MarkedFrameResult where
  frame_name : String
  error : Option PyExcVal
  has_incomplete_nested : Bool
  mark : FrameMark
deriving DecidableEq

/-- Modelled from the spec: FrameResult.successful is true iff the frame
raised no error and contains no incomplete nested session. -/
def MarkedFrameResult.successful (f : MarkedFrameResult) : Bool :=
  f.error.isNone && !f.has_incomplete_nested

/-- Modelled from the spec: FrameResult.mark_as_ignored commits that this
result (and any nested incomplete session) is intentionally disregarded. -/
def MarkedFrameResult.mark_as_ignored (f : MarkedFrameResult) :
    MarkedFrameResult :=
  { f with mark := FrameMark.ignored }

/-- Modelled from the spec: a frame result does not block completes() iff it
is successful or carries a mark; an unsuccessful unmarked result is
unresolved and blocks. -/
def MarkedFrameResult.nonBlocking (f : MarkedFrameResult) : Bool :=
  f.successful || !(f.mark == FrameMark.unmarked)

/-- Modelled from the spec: SessionResult: the frame results bound to the
session, the frames still running at session end, and the error raised by
the session's own control logic, if any. -/
structure SessionResultRec where
  frame_results : List MarkedFrameResult
  stuck_running : List String
  session_error : Option PyExcVal
deriving DecidableEq

/-- Modelled from the spec: SessionResult.completes is false if any bound
frame was still running at session end, any bound frame is unresolved, or
the session itself raised. -/
def SessionResultRec.completes (s : SessionResultRec) : Bool :=
  s.stuck_running.isEmpty && s.session_error.isNone
    && s.frame_results.all (fun f => f.nonBlocking)

/-- The observable steps of one Circuit, in execution order. -/
inductive CircuitEvent where
  | on_open
  | on_start
  | routine
  | on_end
  | on_redo
  | on_close
deriving DecidableEq

/-- Modelled from the spec: the normal-path cycle part of the Circuit,
starting at on_start, given the successive answers the on_redo hook will
return (an exhausted list behaves as an unset hook, answering false).  A
true answer repeats the cycle from on_start; a false answer proceeds to
on_close.  The circuit implementation module is not part of the source
tree; this follows the lifecycle diagrams of the API documentation. -/
def circuitCycles : List Bool → List CircuitEvent
  | [] =>
    [CircuitEvent.on_start, CircuitEvent.routine, CircuitEvent.on_end,
      CircuitEvent.on_redo, CircuitEvent.on_close]
  | true :: rest =>
    [CircuitEvent.on_start, CircuitEvent.routine, CircuitEvent.on_end,
      CircuitEvent.on_redo] ++ circuitCycles rest
  | false :: _ =>
    [CircuitEvent.on_start, CircuitEvent.routine, CircuitEvent.on_end,
      CircuitEvent.on_redo, CircuitEvent.on_close]

/-- Modelled from the spec: the full normal-path trace of one Circuit:
on_open, then the redo-driven cycles. -/
def circuitTrace (redoAnswers : List Bool) : List CircuitEvent :=
  CircuitEvent.on_open :: circuitCycles redoAnswers

/-- A concrete channel holding one defined key "limit" of type int with
value 10 present. -/
def limitChan : Channel :=
  fun q =>
    if q = "limit" then some ⟨"int", some ⟨"int", "10"⟩⟩ else none

/-- A concrete unchecked, not yet raised frame error record. -/
def sampleErr : ErrorRec :=
  { frame_name := "sub", cause := boomExc, checked := false,
    raised_once := false }

/-- A concrete broken, unmarked frame result. -/
def brokenFR : MarkedFrameResult :=
  { frame_name := "sub", error := some boomExc,
    has_incomplete_nested := false, mark := FrameMark.unmarked }

/-- A concrete session result owning just the broken frame result. -/
def sampleSession : SessionResultRec :=
  { frame_results := [brokenFR], stuck_running := [], session_error := none }

/-- Two concrete broken frame results as stored by a result store. -/
def sampleResults : List FrameResultRec :=
  [⟨"a", some boomExc⟩, ⟨"b", some boomExc⟩]

/-- C1 (counterexample): the claim says wait_done never raises on timeout.
On a root executor whose circuit is still executing, when the timeout
elapses before circuit_is_ended is set (the wait returns false, as with
timeout = 0 and a routine that sleeps), wait_done raises TimeoutError
instead of returning normally; the sub executor behaves the same. -/
theorem spec1_wait_done_timeout_raises :
    RootFrameExecutorImpl.wait_done runningRootExec false
        = Except.error PyExc.timeoutError
      ∧ SubFrameExecutorImpl.wait_done runningSubExec false
        = Except.error PyExc.timeoutError :=
  ⟨rfl, rfl⟩

/-- C1 (amended): wait_done blocks until the circuit ends or the timeout
elapses; if the timeout elapses first it raises TimeoutError, and when the
circuit has ended without recorded errors it returns normally. -/
theorem spec1_wait_done_behavior :
    ∀ (s : RootFrameExecutorState) (t : FrameExecutorState),
    RootFrameExecutorImpl.wait_done s false = Except.error PyExc.timeoutError
      ∧ SubFrameExecutorImpl.wait_done t false
        = Except.error PyExc.timeoutError
      ∧ (s.circuit_error = none → s.failed_frames = [] →
          RootFrameExecutorImpl.wait_done s true = Except.ok ())
      ∧ (t.circuit_error = none →
          SubFrameExecutorImpl.wait_done t true = Except.ok ()) := by
  intro s t
  refine ⟨rfl, rfl, ?_, ?_⟩
  · intro h1 h2
    simp [RootFrameExecutorImpl.wait_done, h1, h2]
  · intro h
    simp [SubFrameExecutorImpl.wait_done, h]

/-- Witness for the amended C1 theorem at concrete executors. -/
theorem spec1_wait_done_behavior_witness :
    RootFrameExecutorImpl.wait_done runningRootExec false
        = Except.error PyExc.timeoutError
      ∧ RootFrameExecutorImpl.wait_done endedRootExec true = Except.ok ()
      ∧ SubFrameExecutorImpl.wait_done endedSubExec true = Except.ok () :=
  ⟨(spec1_wait_done_behavior runningRootExec runningSubExec).1,
    (spec1_wait_done_behavior endedRootExec endedSubExec).2.2.1 rfl rfl,
    (spec1_wait_done_behavior endedRootExec endedSubExec).2.2.2 rfl⟩

/-- C2: the claim says the running query is true from the start of the
session until every bound frame has produced its completion record and
false afterwards.  The code computes the opposite: processing() is false
while the circuit is still executing (no completion record exists yet) and
becomes true exactly once the circuit has ended (root: and no sub frames
are outstanding).  Evaluated at the failing inputs: a started executor
whose circuit has not ended, and the same executor after completion. -/
theorem spec2_processing_inverted :
    RootFrameExecutorImpl.processing runningRootExec = false
      ∧ SubFrameExecutorImpl.processing runningSubExec = false
      ∧ RootFrameExecutorImpl.processing endedRootExec = true
      ∧ SubFrameExecutorImpl.processing endedSubExec = true :=
  ⟨rfl, rfl, rfl, rfl⟩

/-- C4: phases only move forward (any allowed transition increments the
phase value by one, so no phase is revisited and no transition goes
backward), TERMINATED admits no further transition, and a second start on
an executor that has left LOAD fails with RuntimeError. -/
theorem spec4_phase_monotonic :
    (∀ s tgt : LATState, s.transitionable tgt = true → s.value < tgt.value)
      ∧ (∀ s tgt : LATState, s.transitionable tgt = true →
          tgt.value = s.value + 1)
      ∧ (∀ tgt : LATState, LATState.TERMINATED.transitionable tgt = false)
      ∧ (∀ s s' : FrameExecutorState,
          FrameExecutorImpl.startImpl s = Except.ok s' →
            FrameExecutorImpl.startImpl s'
              = Except.error PyExc.runtimeError) := by
  refine ⟨?_, ?_, ?_, ?_⟩
  · intro s tgt h
    cases s <;> cases tgt <;>
      simp_all [LATState.transitionable, LATState.get_next, LATState.ofValue,
        LATState.value]
  · intro s tgt h
    cases s <;> cases tgt <;>
      simp_all [LATState.transitionable, LATState.get_next, LATState.ofValue,
        LATState.value]
  · intro tgt
    cases tgt <;>
      simp [LATState.transitionable, LATState.get_next, LATState.ofValue,
        LATState.value]
  · intro s s' h
    unfold FrameExecutorImpl.startImpl at h ⊢
    split at h
    · exact absurd h (by simp)
    · cases h
      simp

/-- Witness for C4: the LOAD to STARTED transition moves forward, and the
second start on a started executor fails. -/
theorem spec4_phase_monotonic_witness :
    LATState.value LATState.LOAD < LATState.value LATState.STARTED
      ∧ FrameExecutorImpl.startImpl
          { loadedSubExec with run_state_set := true, future_is_ready := true }
          = Except.error PyExc.runtimeError :=
  ⟨spec4_phase_monotonic.1 LATState.LOAD LATState.STARTED (by decide),
    spec4_phase_monotonic.2.2.2 loadedSubExec
      { loadedSubExec with run_state_set := true, future_is_ready := true }
      rfl⟩

/-- C5: an agent publishes its completion record at most once.  _end fails
with RuntimeError once circuit_is_ended is set; a successful _end requires
a not-yet-ended agent, records the terminal error and sets the completion
flag, and every later _end on the resulting state fails, so both fields are
written at most once per agent (the root wrapper, which runs under the
agent's lock, behaves the same). -/
theorem spec5_publish_once :
    ∀ (exc : Option PyExcVal) (s : FrameExecutorState)
      (r : RootFrameExecutorState),
    (s.circuit_is_ended = true →
        FrameExecutorImpl.endImpl exc s = Except.error PyExc.runtimeError)
      ∧ (∀ s', FrameExecutorImpl.endImpl exc s = Except.ok s' →
          s.circuit_is_ended = false ∧ s'.circuit_is_ended = true
            ∧ s'.circuit_error = exc
            ∧ ∀ exc', FrameExecutorImpl.endImpl exc' s'
                = Except.error PyExc.runtimeError)
      ∧ (∀ r', RootFrameExecutorImpl.endImpl exc r = Except.ok r' →
          ∀ exc', RootFrameExecutorImpl.endImpl exc' r'
            = Except.error PyExc.runtimeError) := by
  intro exc s r
  refine ⟨?_, ?_, ?_⟩
  · intro h
    simp [FrameExecutorImpl.endImpl, h]
  · intro s' h
    unfold FrameExecutorImpl.endImpl at h
    split at h
    · exact absurd h (by simp)
    · rename_i hend
      cases h
      refine ⟨by simpa using hend, rfl, rfl, ?_⟩
      intro exc'
      simp [FrameExecutorImpl.endImpl]
  · intro r' h exc'
    unfold RootFrameExecutorImpl.endImpl at h ⊢
    unfold FrameExecutorImpl.endImpl at h ⊢
    split at h
    · exact absurd h (by simp)
    · rename_i heq
      split at heq
      · exact absurd heq (by simp)
      · cases heq
        cases h
        simp

/-- Witness for C5: ending an already-ended agent fails, and after a
successful publication the second attempt fails. -/
theorem spec5_publish_once_witness :
    FrameExecutorImpl.endImpl none endedSubExec
        = Except.error PyExc.runtimeError
      ∧ FrameExecutorImpl.endImpl none
          { runningSubExec with
              circuit_error := some boomExc, circuit_is_ended := true }
          = Except.error PyExc.runtimeError :=
  ⟨(spec5_publish_once none endedSubExec endedRootExec).1 rfl,
    ((spec5_publish_once (some boomExc) runningSubExec endedRootExec).2.1
        { runningSubExec with
            circuit_error := some boomExc, circuit_is_ended := true }
        rfl).2.2.2 none⟩

/-- C9: with the on_redo hook answering true, true, false, the circuit runs
the cycle on_start, routine, on_end exactly three times after on_open and
only then runs on_close, exactly once and as the final step. -/
theorem spec9_redo_three_cycles :
    circuitTrace [true, true, false]
        = [CircuitEvent.on_open,
            CircuitEvent.on_start, CircuitEvent.routine, CircuitEvent.on_end,
            CircuitEvent.on_redo,
            CircuitEvent.on_start, CircuitEvent.routine, CircuitEvent.on_end,
            CircuitEvent.on_redo,
            CircuitEvent.on_start, CircuitEvent.routine, CircuitEvent.on_end,
            CircuitEvent.on_redo,
            CircuitEvent.on_close]
      ∧ (circuitTrace [true, true, false]).count CircuitEvent.on_start = 3
      ∧ (circuitTrace [true, true, false]).count CircuitEvent.routine = 3
      ∧ (circuitTrace [true, true, false]).count CircuitEvent.on_end = 3
      ∧ (circuitTrace [true, true, false]).count CircuitEvent.on_close = 1
      ∧ (circuitTrace [true, true, false]).getLast?
          = some CircuitEvent.on_close := by
  refine ⟨rfl, ?_, ?_, ?_, ?_, rfl⟩ <;> decide

/-- C10: FrameAggregateError stores its three constructor arguments
unchanged and builds its message from the root entry (present exactly when
a root error exists) followed by one name and exception-type entry per
sub-frame error, in iteration order. -/
theorem spec10_aggregate_error_fields :
    ∀ (root_name : String) (root_error : Option PyExcVal)
      (sub_errors : List (String × PyExcVal)),
    (FrameAggregateError.init root_name root_error sub_errors).root_frame_name
        = root_name
      ∧ (FrameAggregateError.init root_name root_error
            sub_errors).root_frame_error = root_error
      ∧ (FrameAggregateError.init root_name root_error
            sub_errors).sub_frame_errors = sub_errors
      ∧ (FrameAggregateError.init root_name root_error sub_errors).message
        = "The root frame \x27" ++ root_name
            ++ "\x27 has terminated with errors.\n"
            ++ "The following frames raised errors:\n  "
            ++ String.intercalate ", "
              ((match root_error with
                | some e => [root_name ++ ": " ++ e.typeName]
                | none => [])
                ++ sub_errors.map (fun p => p.1 ++ ": " ++ p.2.typeName)) := by
  intro root_name root_error sub_errors
  cases root_error <;> exact ⟨rfl, rfl, rfl, rfl⟩

/-- C3: at-most-once delivery per single-item accessor: whatever the filter
(broken, successful or finished), the schedule of store snapshots and the
bookkeeping already accumulated, a sequence of accessor calls never
delivers the same frame result twice, and never delivers one recorded as
already returned. -/
theorem spec3_accessor_at_most_once :
    ∀ (filt : FrameResultRec → Bool) (schedule : List (List FrameResultRec))
      (returned : List String),
    (runAccessor filt schedule returned).Nodup
      ∧ ∀ x ∈ runAccessor filt schedule returned, x ∉ returned := by
  intro filt schedule
  induction schedule with
  | nil =>
    intro returned
    simp [runAccessor]
  | cons rs rest ih =>
    intro returned
    rcases hfind : getFrameOnce filt returned rs with _ | r
    · simpa only [runAccessor, hfind] using ih returned
    · have hp : filt r = true ∧ r.frame_name ∉ returned := by
        unfold getFrameOnce at hfind
        simpa using List.find?_some hfind
      obtain ⟨hnd, hnotin⟩ := ih (r.frame_name :: returned)
      refine ⟨?_, ?_⟩
      · simp only [runAccessor, hfind]
        refine List.nodup_cons.mpr ⟨?_, hnd⟩
        intro hx
        exact (hnotin _ hx) (List.mem_cons_self _ _)
      · simp only [runAccessor, hfind]
        intro x hx
        rcases List.mem_cons.mp hx with h | h
        · subst h
          exact hp.2
        · intro hxr
          exact (hnotin x h) (List.mem_cons_of_mem _ hxr)

/-- Witness for C3 with the broken-frame filter on a concrete store. -/
theorem spec3_accessor_at_most_once_witness :
    runAccessor brokenFilter [sampleResults, sampleResults, sampleResults] []
        = ["a", "b"]
      ∧ (runAccessor brokenFilter
          [sampleResults, sampleResults, sampleResults] []).Nodup
      ∧ "a" ∉ ([] : List String) := by
  refine ⟨by decide, ?_, ?_⟩
  · exact (spec3_accessor_at_most_once brokenFilter
      [sampleResults, sampleResults, sampleResults] []).1
  · exact (spec3_accessor_at_most_once brokenFilter
      [sampleResults, sampleResults, sampleResults] []).2 "a" (by decide)

/-- C6: consuming a defined key with a present value makes a subsequent get
fail with the consumed error, while the key and its declared type survive:
setting a value of the declared type afterwards succeeds and a subsequent
get returns exactly that value. -/
theorem spec6_consume_semantics :
    ∀ (c : Channel) (k typ : String) (v0 : PyVal) (c1 : Channel),
    Channel.consume c k typ = Except.ok (v0, c1) →
    Channel.get c1 k typ = Except.error PyExc.consumedError
      ∧ ∀ v : PyVal, v.ty = typ →
          Channel.set c1 k typ v
              = Except.ok (Channel.update c1 k ⟨typ, some v⟩)
            ∧ Channel.get (Channel.update c1 k ⟨typ, some v⟩) k typ
              = Except.ok v := by
  intro c k typ v0 c1 h
  unfold Channel.consume at h
  cases hc : c k with
  | none => rw [hc] at h; cases h
  | some e =>
    rw [hc] at h
    dsimp only at h
    by_cases hty : typ = e.keyType
    · rw [if_neg (not_not_intro hty)] at h
      cases hv : e.value with
      | none => rw [hv] at h; cases h
      | some vPresent =>
        rw [hv] at h
        simp only [Except.ok.injEq, Prod.mk.injEq] at h
        obtain ⟨hv0, hc1⟩ := h
        subst hc1
        subst hty
        constructor
        · simp [Channel.get, Channel.update]
        · intro v hvty
          constructor
          · simp [Channel.set, Channel.update, hvty]
          · simp [Channel.get, Channel.update]
    · rw [if_pos hty] at h
      cases h

/-- Witness for C6 on a concrete channel holding key "limit" of type int. -/
theorem spec6_consume_semantics_witness :
    Channel.get (Channel.update limitChan "limit" ⟨"int", none⟩) "limit" "int"
        = Except.error PyExc.consumedError
      ∧ Channel.get
          (Channel.update (Channel.update limitChan "limit" ⟨"int", none⟩)
            "limit" ⟨"int", some ⟨"int", "11"⟩⟩) "limit" "int"
        = Except.ok ⟨"int", "11"⟩ := by
  have h := spec6_consume_semantics limitChan "limit" "int" ⟨"int", "10"⟩
    (Channel.update limitChan "limit" ⟨"int", none⟩) rfl
  exact ⟨h.1, (h.2 ⟨"int", "11"⟩ rfl).2⟩

/-- reraise only raises an error record that has not been raised through
this path before. -/
theorem reraise_fst_spec (u : Bool) :
    ∀ errs : List ErrorRec, ∀ r, (reraise u errs).1 = some r →
      r ∈ errs ∧ r.raised_once = false := by
  intro errs
  induction errs with
  | nil =>
    intro r h
    simp [reraise] at h
  | cons e rest ih =>
    intro r h
    simp only [reraise] at h
    by_cases he : e.raised_once = true
    · rw [if_pos he] at h
      obtain ⟨hm, hr⟩ := ih r h
      exact ⟨List.mem_cons_of_mem _ hm, hr⟩
    · rw [if_neg he] at h
      have h' : some e = some r := h
      injection h' with h2
      subst h2
      exact ⟨List.mem_cons_self _ _, by simpa using he⟩

/-- After a raise, the raised record is retained marked raised_once (and
checked additionally when unwrap was used). -/
theorem reraise_marks_raised (u : Bool) :
    ∀ errs : List ErrorRec, ∀ r, (reraise u errs).1 = some r →
      { r with raised_once := true, checked := r.checked || u }
        ∈ (reraise u errs).2 := by
  intro errs
  induction errs with
  | nil =>
    intro r h
    simp [reraise] at h
  | cons e rest ih =>
    intro r h
    simp only [reraise] at h ⊢
    by_cases he : e.raised_once = true
    · rw [if_pos he] at h ⊢
      exact List.mem_cons_of_mem _ (ih r h)
    · rw [if_neg he] at h ⊢
      have h' : some e = some r := h
      injection h' with h2
      subst h2
      exact List.mem_cons_self _ _

/-- Records already marked raised_once survive a reraise unchanged. -/
theorem reraise_keeps_raised (u : Bool) :
    ∀ errs : List ErrorRec, ∀ r, r ∈ errs → r.raised_once = true →
      r ∈ (reraise u errs).2 := by
  intro errs
  induction errs with
  | nil =>
    intro r h
    simp at h
  | cons e rest ih =>
    intro r hr hraised
    simp only [reraise]
    by_cases he : e.raised_once = true
    · rw [if_pos he]
      rcases List.mem_cons.mp hr with rfl | hm
      · exact List.mem_cons_self _ _
      · exact List.mem_cons_of_mem _ (ih r hm hraised)
    · rw [if_neg he]
      rcases List.mem_cons.mp hr with rfl | hm
      · exact absurd hraised he
      · exact List.mem_cons_of_mem _ hm

/-- A reraise creates no new not-yet-raised record: any unraised record of
the output was already held before. -/
theorem reraise_no_new_unraised (u : Bool) :
    ∀ errs : List ErrorRec, ∀ r, r ∈ (reraise u errs).2 →
      r.raised_once = false → r ∈ errs := by
  intro errs
  induction errs with
  | nil =>
    intro r h
    simp [reraise] at h
  | cons e rest ih =>
    intro r hmem hru
    simp only [reraise] at hmem
    by_cases he : e.raised_once = true
    · rw [if_pos he] at hmem
      rcases List.mem_cons.mp hmem with rfl | hm
      · exact List.mem_cons_self _ _
      · exact List.mem_cons_of_mem _ (ih r hm hru)
    · rw [if_neg he] at hmem
      rcases List.mem_cons.mp hmem with rfl | hm
      · simp at hru
      · exact List.mem_cons_of_mem _ hm

/-- After reraise (without unwrap) raises a still-unchecked record, the
session still holds an unchecked error. -/
theorem reraise_faulted_after :
    ∀ errs : List ErrorRec, ∀ r, (reraise false errs).1 = some r →
      r.checked = false → faulted (reraise false errs).2 = true := by
  intro errs
  induction errs with
  | nil =>
    intro r h
    simp [reraise] at h
  | cons e rest ih =>
    intro r h hch
    simp only [reraise] at h ⊢
    by_cases he : e.raised_once = true
    · rw [if_pos he] at h ⊢
      have hf := ih r h hch
      unfold faulted at hf ⊢
      simp only [List.any_cons, Bool.or_eq_true]
      exact Or.inr hf
    · rw [if_neg he] at h ⊢
      have h' : some e = some r := h
      injection h' with h2
      subst h2
      simp [faulted, hch]

/-- Once every held record is checked, faulted reports false. -/
theorem faulted_all_checked :
    ∀ errs : List ErrorRec, faulted (errs.map ErrorRec.check) = false := by
  intro errs
  induction errs with
  | nil => rfl
  | cons e rest ih =>
    unfold faulted at ih ⊢
    simp [ErrorRec.check, List.any_cons, ih]

/-- C7: the re-raise wrapper raises a given frame error at most once: it
only ever raises records not yet raised through this path, afterwards it
retains the record marked as raised (checked only when unwrap was used),
raised records persist and no unraised duplicate ever appears; after a
non-unwrap raise of a still-unchecked error, faulted still reports the
unresolved state, and it stops doing so once every error is explicitly
checked. -/
theorem spec7_reraise_once :
    ∀ (u : Bool) (errs : List ErrorRec),
    (∀ r, (reraise u errs).1 = some r → r ∈ errs ∧ r.raised_once = false)
      ∧ (∀ r, (reraise u errs).1 = some r →
          { r with raised_once := true, checked := r.checked || u }
            ∈ (reraise u errs).2)
      ∧ (∀ r, r ∈ errs → r.raised_once = true → r ∈ (reraise u errs).2)
      ∧ (∀ r, r ∈ (reraise u errs).2 → r.raised_once = false → r ∈ errs)
      ∧ (∀ r, (reraise false errs).1 = some r → r.checked = false →
          faulted (reraise false errs).2 = true)
      ∧ faulted (errs.map ErrorRec.check) = false := by
  intro u errs
  exact ⟨reraise_fst_spec u errs, reraise_marks_raised u errs,
    reraise_keeps_raised u errs, reraise_no_new_unraised u errs,
    reraise_faulted_after errs, faulted_all_checked errs⟩

/-- Witness for C7 on a session holding one unchecked, unraised error. -/
theorem spec7_reraise_once_witness :
    (sampleErr ∈ [sampleErr] ∧ sampleErr.raised_once = false)
      ∧ faulted (reraise false [sampleErr]).2 = true :=
  ⟨(spec7_reraise_once false [sampleErr]).1 sampleErr rfl,
    (spec7_reraise_once false [sampleErr]).2.2.2.2.1 sampleErr rfl rfl⟩

/-- C8: marking a broken frame result as ignored leaves successful() false
but makes the result non-blocking, so a session whose other results are
non-blocking completes once the broken result is marked ignored (any
incomplete nested session it contains is disregarded with it). -/
theorem spec8_mark_ignored :
    ∀ f : MarkedFrameResult, f.error.isSome = true →
    MarkedFrameResult.successful (MarkedFrameResult.mark_as_ignored f) = false
      ∧ MarkedFrameResult.nonBlocking (MarkedFrameResult.mark_as_ignored f)
          = true
      ∧ ∀ s : SessionResultRec, s.stuck_running = [] →
          s.session_error = none →
          (∀ g ∈ s.frame_results, g ≠ f →
            MarkedFrameResult.nonBlocking g = true) →
          SessionResultRec.completes
              { s with
                  frame_results :=
                    s.frame_results.map
                      (fun g =>
                        if g = f then MarkedFrameResult.mark_as_ignored g
                        else g) }
            = true := by
  intro f hf
  have hsucc :
      MarkedFrameResult.successful (MarkedFrameResult.mark_as_ignored f)
        = false := by
    cases ho : f.error with
    | none => rw [ho] at hf; cases hf
    | some e =>
      simp [MarkedFrameResult.successful, MarkedFrameResult.mark_as_ignored,
        ho]
  have hnb :
      MarkedFrameResult.nonBlocking (MarkedFrameResult.mark_as_ignored f)
        = true := by
    simp [MarkedFrameResult.nonBlocking, MarkedFrameResult.mark_as_ignored]
  refine ⟨hsucc, hnb, ?_⟩
  intro s hstuck herr hrest
  simp only [SessionResultRec.completes, hstuck, herr]
  simp only [List.isEmpty_nil, Option.isNone_none, Bool.true_and]
  rw [List.all_eq_true]
  intro g hg
  rcases List.mem_map.mp hg with ⟨g0, hg0, hEq⟩
  by_cases hgf : g0 = f
  · rw [← hEq, if_pos hgf, hgf]
    exact hnb
  · rw [← hEq, if_neg hgf]
    exact hrest g0 hg0 hgf

/-- Witness for C8 on a concrete session holding one broken result. -/
theorem spec8_mark_ignored_witness :
    MarkedFrameResult.successful (MarkedFrameResult.mark_as_ignored brokenFR)
        = false
      ∧ SessionResultRec.completes
          { sampleSession with
              frame_results :=
                sampleSession.frame_results.map
                  (fun g =>
                    if g = brokenFR then MarkedFrameResult.mark_as_ignored g
                    else g) }
        = true := by
  have h := spec8_mark_ignored brokenFR rfl
  refine ⟨h.1, h.2.2 sampleSession rfl rfl ?_⟩
  intro g hg hne
  simp only [sampleSession, List.mem_singleton] at hg
  exact absurd hg hne

end GpFrame
